import Mathlib

/-!
Verification of the query-parameter composition and endpoint-path layer of
the demo_ep repository.

The Python sources embedded here:
  - enums.py                  : BooleanStringEnum
  - endpoint_query_params.py  : FabricConfigDeployQueryParams,
                                NetworkNamesQueryParams, VrfNamesQueryParams,
                                LinkByUuidQueryParams
  - endpoints.py              : the OneManage endpoint request models and
                                their path properties
  - ep_api_v1_infra_aaa.py    : the AAA localUsers endpoint models
  - pydantic_compat.py        : the no-validation fallback assignment
  - demo_composite.py         : full-URL composition

The query_params module (EndpointQueryParams, LuceneQueryParams,
CompositeQueryParams) and the base_paths module are not part of the
source tree; their definitions below are modelled from the spec and are
pinned by the repository's unit tests (test_query_params.py,
test_base_paths.py).

Python `@property def path` accessors that may raise ValueError are
embedded as functions into `Except String String`; accessors that cannot
raise return `Except.ok` unconditionally.  Validated attribute assignment
(pydantic `validate_assignment=True` with declared Field constraints) is
embedded as a guarded setter into `Except String <model>`.
-/

namespace DemoEp

/-- From enums.py: two-value enumeration whose wire form is the literal
lowercase strings "true"/"false". -/
inductive BooleanStringEnum
  | TRUE
  | FALSE
deriving DecidableEq, Repr

/-- From enums.py: the wire string of a BooleanStringEnum member. -/
def BooleanStringEnum.value : BooleanStringEnum → String
  | .TRUE => "true"
  | .FALSE => "false"

/-- From endpoint_mixins.py / endpoint_query_params.py:
FabricConfigDeployQueryParams with force_show_run and
incl_all_msd_switches, both defaulting to BooleanStringEnum.FALSE. -/
structure FabricConfigDeployQueryParams where
  force_show_run : BooleanStringEnum := .FALSE
  incl_all_msd_switches : BooleanStringEnum := .FALSE
deriving DecidableEq

/-- From endpoint_query_params.py lines 59-66: both parameters are always
appended (they have defaults) and joined with "&". -/
def FabricConfigDeployQueryParams.to_query_string
    (p : FabricConfigDeployQueryParams) : String :=
  String.intercalate "&"
    ["forceShowRun=" ++ p.force_show_run.value,
     "inclAllMSDSwitches=" ++ p.incl_all_msd_switches.value]

/-- Substring test used to state the "contains" assertions of the spec. -/
def listIsInfix (pat l : List Char) : Bool :=
  l.tails.any (fun t => pat.isPrefixOf t)

/-- `strContains s pat` is true iff `pat` occurs inside `s`. -/
def strContains (s pat : String) : Bool :=
  listIsInfix pat.data s.data

/-- Modelled from the spec: emptiness of FabricConfigDeployQueryParams.
Both of its fields are always-present — exempt from the emptiness check
and serialized unconditionally — and a model holding fields of the
required-always-present set is never empty, even when the caller assigned
nothing (spec sections 4.1 and 8.7). -/
def FabricConfigDeployQueryParams.is_empty
    (_ : FabricConfigDeployQueryParams) : Bool :=
  false

/-- Unreserved characters of application/x-www-form-urlencoded percent
encoding: alphanumerics and -, _, ., ~ are emitted verbatim. -/
def isUnreservedChar (c : Char) : Bool :=
  c.isAlphanum || c == '-' || c == '_' || c == '.' || c == '~'

/-- Uppercase hexadecimal digit of a value below 16. -/
def hexDigitChar (n : Nat) : Char :=
  if n < 10 then Char.ofNat (48 + n) else Char.ofNat (55 + n)

/-- Percent-encode one character (ASCII range, as produced by the
modelled inputs). -/
def encodeChar (c : Char) : List Char :=
  if isUnreservedChar c then [c]
  else ['%', hexDigitChar (c.toNat / 16 % 16), hexDigitChar (c.toNat % 16)]

/-- Modelled from the spec: percent-encoding with %20 for space (urllib
quote semantics used by the missing query_params.py). -/
def percentEncode (s : String) : String :=
  ⟨s.data.foldr (fun c acc => encodeChar c ++ acc) []⟩

/-- Numeric value of a hexadecimal digit character. -/
def hexVal (c : Char) : Nat :=
  if 97 ≤ c.toNat then c.toNat - 87
  else if 65 ≤ c.toNat then c.toNat - 55
  else c.toNat - 48

/-- Standard percent-decoding over a character list: each %XX triple
becomes the character with code XX, everything else passes through. -/
def percentDecodeList : List Char → List Char
  | '%' :: h1 :: h2 :: rest =>
      Char.ofNat (16 * hexVal h1 + hexVal h2) :: percentDecodeList rest
  | c :: rest => c :: percentDecodeList rest
  | [] => []

/-- Standard percent-decoding of a string. -/
def percentDecode (s : String) : String :=
  ⟨percentDecodeList s.data⟩

/-- Modelled from the spec: LuceneQueryParams of the missing
query_params.py — optional filter, max, offset, sort and fields, all
defaulting to none. -/
structure LuceneQueryParams where
  filter : Option String := none
  max : Option Int := none
  offset : Option Int := none
  sort : Option String := none
  fields : Option String := none
deriving DecidableEq

/-- Modelled from the spec: LuceneQueryParams.to_query_string — fields
emitted iff non-null, in declaration order, values percent-encoded when
url_encode is true, pairs joined with "&". -/
def LuceneQueryParams.to_query_string
    (p : LuceneQueryParams) (url_encode : Bool := true) : String :=
  let enc := fun (v : String) => if url_encode then percentEncode v else v
  let params :=
    (match p.filter with | some v => ["filter=" ++ enc v] | none => []) ++
    (match p.max with | some v => ["max=" ++ enc (toString v)] | none => []) ++
    (match p.offset with | some v => ["offset=" ++ enc (toString v)] | none => []) ++
    (match p.sort with | some v => ["sort=" ++ enc v] | none => []) ++
    (match p.fields with | some v => ["fields=" ++ enc v] | none => [])
  String.intercalate "&" params

/-- Modelled from the spec: LuceneQueryParams.is_empty — true iff every
field is none. -/
def LuceneQueryParams.is_empty (p : LuceneQueryParams) : Bool :=
  p.filter.isNone && p.max.isNone && p.offset.isNone &&
    p.sort.isNone && p.fields.isNone

/-- A parameter model registrable with the composite aggregator: either an
endpoint-specific FabricConfigDeployQueryParams or a LuceneQueryParams. -/
inductive QPModel
  | deploy (p : FabricConfigDeployQueryParams)
  | lucene (p : LuceneQueryParams)
deriving DecidableEq

/-- Emptiness of a registered model, dispatching to the model's own
is_empty. -/
def QPModel.is_empty : QPModel → Bool
  | .deploy p => p.is_empty
  | .lucene p => p.is_empty

/-- Serialization of a registered model; the encoding preference is passed
through only to models with per-call encoding (the filter-style model). -/
def QPModel.to_query_string (m : QPModel) (url_encode : Bool) : String :=
  match m with
  | .deploy p => p.to_query_string
  | .lucene p => p.to_query_string url_encode

/-- Modelled from the spec: CompositeQueryParams of the missing
query_params.py — an ordered sequence of registered parameter models. -/
structure CompositeQueryParams where
  models : List QPModel := []
deriving DecidableEq

/-- Modelled from the spec: add appends a model and returns the aggregate
for chaining. -/
def CompositeQueryParams.add
    (c : CompositeQueryParams) (m : QPModel) : CompositeQueryParams :=
  { models := c.models ++ [m] }

/-- Modelled from the spec: clear empties the registered list. -/
def CompositeQueryParams.clear (_ : CompositeQueryParams) : CompositeQueryParams :=
  {}

/-- Modelled from the spec: composite is_empty — true iff every registered
model is empty, or no model is registered. -/
def CompositeQueryParams.is_empty (c : CompositeQueryParams) : Bool :=
  c.models.all (fun m => m.is_empty)

/-- Modelled from the spec: the collection loop of
CompositeQueryParams.to_query_string — visit models in order, skip a model
whose is_empty is true, otherwise serialize it and collect the fragment
when non-empty. -/
def collectFragments (models : List QPModel) (url_encode : Bool) : List String :=
  match models with
  | [] => []
  | m :: rest =>
      if m.is_empty then collectFragments rest url_encode
      else
        let f := m.to_query_string url_encode
        if f = "" then collectFragments rest url_encode
        else f :: collectFragments rest url_encode

/-- Modelled from the spec: CompositeQueryParams.to_query_string — the
collected non-empty fragments joined with "&"; the empty string when no
fragment is collected. -/
def CompositeQueryParams.to_query_string
    (c : CompositeQueryParams) (url_encode : Bool := true) : String :=
  String.intercalate "&" (collectFragments c.models url_encode)

/-- Joining an API root constant with path segments using "/" separators,
with no segment validation or escaping. -/
def joinSegments (root : String) (segments : List String) : String :=
  segments.foldl (fun acc s => acc ++ "/" ++ s) root

namespace BasePath

/-- Modelled from the spec: BasePath.onemanage_fabrics of the missing
base_paths.py; the root value is pinned by test_base_paths.py. -/
def onemanage_fabrics (segments : List String) : String :=
  joinSegments "/appcenter/cisco/ndfc/api/v1/onemanage/fabrics" segments

/-- Modelled from the spec: BasePath.onemanage_links of the missing
base_paths.py; the root value is pinned by test_base_paths.py. -/
def onemanage_links (segments : List String) : String :=
  joinSegments "/appcenter/cisco/ndfc/api/v1/onemanage/links" segments

/-- Modelled from the spec: BasePath.onemanage_top_down_fabrics of the
missing base_paths.py; the root value is pinned by test_base_paths.py. -/
def onemanage_top_down_fabrics (segments : List String) : String :=
  joinSegments "/appcenter/cisco/ndfc/api/v1/onemanage/top-down/fabrics" segments

/-- Modelled from the spec: BasePath.nd_infra_aaa of the missing
base_paths.py; the root value is pinned by test_ep_api_v1_infra_aaa.py. -/
def nd_infra_aaa (segments : List String) : String :=
  joinSegments "/api/v1/infra/aaa" segments

end BasePath

/-- From demo_composite.py: the full URL is the base path plus "?" plus the
query string when the query string is non-empty, else the base path. -/
def fullUrl (base_path query_string : String) : String :=
  if query_string ≠ "" then base_path ++ "?" ++ query_string else base_path

/-- From endpoints.py: EpOneManageFabricConfigDeploy — fabric_name path
parameter (default unset) plus endpoint query params. -/
structure EpOneManageFabricConfigDeploy where
  fabric_name : Option String := none
  query_params : FabricConfigDeployQueryParams := {}
deriving DecidableEq

/-- From endpoints.py lines 288-311: raise if fabric_name is unset, else
join the base path with the query string when non-empty. -/
def EpOneManageFabricConfigDeploy.path
    (ep : EpOneManageFabricConfigDeploy) : Except String String :=
  match ep.fabric_name with
  | none => .error "fabric_name must be set before accessing path"
  | some f =>
      let base_path := BasePath.onemanage_fabrics [f, "config-deploy"]
      let query_string := ep.query_params.to_query_string
      if query_string ≠ "" then .ok (base_path ++ "?" ++ query_string)
      else .ok base_path

/-- From endpoints.py: EpOneManageFabricConfigDeploySwitch — fabric_name
and switch_sn path parameters plus endpoint query params. -/
structure EpOneManageFabricConfigDeploySwitch where
  fabric_name : Option String := none
  switch_sn : Option String := none
  query_params : FabricConfigDeployQueryParams := {}
deriving DecidableEq

/-- From endpoints.py lines 356-381: raise if fabric_name or switch_sn is
unset (fabric_name checked first), else join base path and query string. -/
def EpOneManageFabricConfigDeploySwitch.path
    (ep : EpOneManageFabricConfigDeploySwitch) : Except String String :=
  match ep.fabric_name with
  | none => .error "fabric_name must be set before accessing path"
  | some f =>
      match ep.switch_sn with
      | none => .error "switch_sn must be set before accessing path"
      | some sn =>
          let base_path := BasePath.onemanage_fabrics [f, "config-deploy", sn]
          let query_string := ep.query_params.to_query_string
          if query_string ≠ "" then .ok (base_path ++ "?" ++ query_string)
          else .ok base_path

/-- From endpoints.py: EpOneManageVrfUpdate — fabric_name and vrf_name
path parameters. -/
structure EpOneManageVrfUpdate where
  fabric_name : Option String := none
  vrf_name : Option String := none
deriving DecidableEq

/-- From endpoints.py lines 1741-1761: raise if fabric_name or vrf_name is
unset (fabric_name checked first). -/
def EpOneManageVrfUpdate.path (ep : EpOneManageVrfUpdate) : Except String String :=
  match ep.fabric_name with
  | none => .error "fabric_name must be set before accessing path"
  | some f =>
      match ep.vrf_name with
      | none => .error "vrf_name must be set before accessing path"
      | some v => .ok (BasePath.onemanage_top_down_fabrics [f, "vrfs", v])

/-- From endpoints.py: EpOneManageNetworkUpdate — fabric_name and
network_name path parameters. -/
structure EpOneManageNetworkUpdate where
  fabric_name : Option String := none
  network_name : Option String := none
deriving DecidableEq

/-- From endpoints.py lines 1484-1504: raise if fabric_name or
network_name is unset (fabric_name checked first). -/
def EpOneManageNetworkUpdate.path
    (ep : EpOneManageNetworkUpdate) : Except String String :=
  match ep.fabric_name with
  | none => .error "fabric_name must be set before accessing path"
  | some f =>
      match ep.network_name with
      | none => .error "network_name must be set before accessing path"
      | some n => .ok (BasePath.onemanage_top_down_fabrics [f, "networks", n])

/-- From endpoint_query_params.py lines 93-115: LinkByUuidQueryParams with
optional source and destination cluster names. -/
structure LinkByUuidQueryParams where
  source_cluster_name : Option String := none
  destination_cluster_name : Option String := none
deriving DecidableEq

/-- From endpoint_query_params.py lines 108-115: each cluster name is
emitted iff truthy (set and non-empty), joined with "&". -/
def LinkByUuidQueryParams.to_query_string (p : LinkByUuidQueryParams) : String :=
  let params :=
    (match p.source_cluster_name with
     | some v => if v = "" then [] else ["sourceClusterName=" ++ v]
     | none => []) ++
    (match p.destination_cluster_name with
     | some v => if v = "" then [] else ["destinationClusterName=" ++ v]
     | none => [])
  String.intercalate "&" params

/-- From endpoints.py: EpOneManageLinkGetByUuid — link_uuid path parameter
plus link query params. -/
structure EpOneManageLinkGetByUuid where
  link_uuid : Option String := none
  query_params : LinkByUuidQueryParams := {}
deriving DecidableEq

/-- From endpoints.py lines 1139-1160: raise if link_uuid is unset, else
join base path and query string when non-empty. -/
def EpOneManageLinkGetByUuid.path
    (ep : EpOneManageLinkGetByUuid) : Except String String :=
  match ep.link_uuid with
  | none => .error "link_uuid must be set before accessing path"
  | some u =>
      let base_path := BasePath.onemanage_links [u]
      let query_string := ep.query_params.to_query_string
      if query_string ≠ "" then .ok (base_path ++ "?" ++ query_string)
      else .ok base_path

/-- From ep_api_v1_infra_aaa.py: the AAA localUsers endpoint models carry
an optional login_id (default unset). -/
structure EpApiV1InfraAaaLocalUsersGet where
  login_id : Option String := none
deriving DecidableEq

/-- From ep_api_v1_infra_aaa.py lines 50-63: the path includes login_id
when it is set and falls back to the collection path when it is not; no
failure is ever raised. -/
def EpApiV1InfraAaaLocalUsersGet.path
    (ep : EpApiV1InfraAaaLocalUsersGet) : Except String String :=
  match ep.login_id with
  | some id => .ok (BasePath.nd_infra_aaa ["localUsers", id])
  | none => .ok (BasePath.nd_infra_aaa ["localUsers"])

/-- From endpoint_query_params.py lines 118-136: NetworkNamesQueryParams
with an optional comma-separated network_names field. -/
structure NetworkNamesQueryParams where
  network_names : Option String := none
deriving DecidableEq

/-- From endpoint_query_params.py lines 131-136: network_names is emitted
iff truthy, under the hyphenated wire key network-names. -/
def NetworkNamesQueryParams.to_query_string (p : NetworkNamesQueryParams) : String :=
  let params :=
    match p.network_names with
    | some v => if v = "" then [] else ["network-names=" ++ v]
    | none => []
  String.intercalate "&" params

/-- From endpoint_query_params.py lines 139-157: VrfNamesQueryParams with
an optional comma-separated vrf_names field. -/
structure VrfNamesQueryParams where
  vrf_names : Option String := none
deriving DecidableEq

/-- From endpoint_query_params.py lines 152-157: vrf_names is emitted iff
truthy, under the hyphenated wire key vrf-names. -/
def VrfNamesQueryParams.to_query_string (p : VrfNamesQueryParams) : String :=
  let params :=
    match p.vrf_names with
    | some v => if v = "" then [] else ["vrf-names=" ++ v]
    | none => []
  String.intercalate "&" params

/-- Declared Field string constraints of endpoint_mixins.py: a value is
accepted iff its length is at least minLen and, when a maximum is
declared, at most that maximum. -/
def validLen (minLen : Nat) (maxLen : Option Nat) (s : String) : Bool :=
  decide (minLen ≤ s.length) &&
    (match maxLen with
     | some m => decide (s.length ≤ m)
     | none => true)

/-- Validated assignment of fabric_name (FabricNameMixin: min_length=1,
max_length=64; model_config validate_assignment=True): out-of-constraint
values are rejected at assignment time. -/
def EpOneManageFabricConfigDeploy.assign_fabric_name
    (ep : EpOneManageFabricConfigDeploy) (s : String) :
    Except String EpOneManageFabricConfigDeploy :=
  if validLen 1 (some 64) s then .ok { ep with fabric_name := some s }
  else .error "ValidationError: fabric_name"

/-- Validated assignment of network_name (NetworkNameMixin: min_length=1,
max_length=64). -/
def EpOneManageNetworkUpdate.assign_network_name
    (ep : EpOneManageNetworkUpdate) (s : String) :
    Except String EpOneManageNetworkUpdate :=
  if validLen 1 (some 64) s then .ok { ep with network_name := some s }
  else .error "ValidationError: network_name"

/-- Validated assignment of vrf_name (VrfNameMixin: min_length=1,
max_length=64). -/
def EpOneManageVrfUpdate.assign_vrf_name
    (ep : EpOneManageVrfUpdate) (s : String) :
    Except String EpOneManageVrfUpdate :=
  if validLen 1 (some 64) s then .ok { ep with vrf_name := some s }
  else .error "ValidationError: vrf_name"

/-- Validated assignment of switch_sn (SwitchSerialNumberMixin:
min_length=1, no maximum). -/
def EpOneManageFabricConfigDeploySwitch.assign_switch_sn
    (ep : EpOneManageFabricConfigDeploySwitch) (s : String) :
    Except String EpOneManageFabricConfigDeploySwitch :=
  if validLen 1 none s then .ok { ep with switch_sn := some s }
  else .error "ValidationError: switch_sn"

/-- Validated assignment of link_uuid (LinkUuidMixin: min_length=1, no
maximum). -/
def EpOneManageLinkGetByUuid.assign_link_uuid
    (ep : EpOneManageLinkGetByUuid) (s : String) :
    Except String EpOneManageLinkGetByUuid :=
  if validLen 1 none s then .ok { ep with link_uuid := some s }
  else .error "ValidationError: link_uuid"

/-- Validated assignment of login_id (LoginIdMixin: min_length=1, no
maximum). -/
def EpApiV1InfraAaaLocalUsersGet.assign_login_id
    (ep : EpApiV1InfraAaaLocalUsersGet) (s : String) :
    Except String EpApiV1InfraAaaLocalUsersGet :=
  if validLen 1 none s then .ok { ep with login_id := some s }
  else .error "ValidationError: login_id"

/-- From pydantic_compat.py lines 43-65: under the fallback BaseModel,
constraints stop being enforced and attribute assignment always succeeds,
simply storing the value. -/
def EpOneManageFabricConfigDeploy.assign_fabric_name_fallback
    (ep : EpOneManageFabricConfigDeploy) (s : String) :
    EpOneManageFabricConfigDeploy :=
  { ep with fabric_name := some s }

/-- Claim C1: For a FabricConfigDeployQueryParams left at its declared defaults
(force_show_run and incl_all_msd_switches both "false"), to_query_string
returns a string containing both forceShowRun=false and
inclAllMSDSwitches=false: the string-typed "false" default is never treated
as an absent value. -/
theorem fabric_config_deploy_defaults_always_emitted :
    strContains ({} : FabricConfigDeployQueryParams).to_query_string
      "forceShowRun=false" = true ∧
    strContains ({} : FabricConfigDeployQueryParams).to_query_string
      "inclAllMSDSwitches=false" = true := by
  decide

/-- Claim C2 counterexample: Reading path on an AAA local-users endpoint
whose login_id is unset does not fail: it returns the collection path
/api/v1/infra/aaa/localUsers, contradicting the claim that a
required-path-parameter-missing failure is raised for login_id. -/
theorem aaa_login_id_unset_path_does_not_raise :
    ({ login_id := none } : EpApiV1InfraAaaLocalUsersGet).path
      = Except.ok "/api/v1/infra/aaa/localUsers" := by
  rfl

/-- Claim C2 amended: For the OneManage endpoint request objects, reading
path before a mandatory identifier (fabric name, switch serial, VRF name,
network name, link UUID) is assigned yields a failure naming the missing
parameter; the AAA local-users login_id is optional instead: with it
unset, path returns the collection path without failing. -/
theorem mandatory_path_identifier_missing_raises :
    (∀ qp : FabricConfigDeployQueryParams,
      ({ fabric_name := none, query_params := qp } :
          EpOneManageFabricConfigDeploy).path
        = Except.error "fabric_name must be set before accessing path") ∧
    (∀ (f : String) (qp : FabricConfigDeployQueryParams),
      ({ fabric_name := some f, switch_sn := none, query_params := qp } :
          EpOneManageFabricConfigDeploySwitch).path
        = Except.error "switch_sn must be set before accessing path") ∧
    (∀ (sn : Option String) (qp : FabricConfigDeployQueryParams),
      ({ fabric_name := none, switch_sn := sn, query_params := qp } :
          EpOneManageFabricConfigDeploySwitch).path
        = Except.error "fabric_name must be set before accessing path") ∧
    (∀ f : String,
      ({ fabric_name := some f, vrf_name := none } : EpOneManageVrfUpdate).path
        = Except.error "vrf_name must be set before accessing path") ∧
    (∀ v : Option String,
      ({ fabric_name := none, vrf_name := v } : EpOneManageVrfUpdate).path
        = Except.error "fabric_name must be set before accessing path") ∧
    (∀ f : String,
      ({ fabric_name := some f, network_name := none } :
          EpOneManageNetworkUpdate).path
        = Except.error "network_name must be set before accessing path") ∧
    (∀ qp : LinkByUuidQueryParams,
      ({ link_uuid := none, query_params := qp } :
          EpOneManageLinkGetByUuid).path
        = Except.error "link_uuid must be set before accessing path") ∧
    ({ login_id := none } : EpApiV1InfraAaaLocalUsersGet).path
      = Except.ok (BasePath.nd_infra_aaa ["localUsers"]) :=
  ⟨fun _ => rfl, fun _ _ => rfl, fun _ _ => rfl, fun _ => rfl,
   fun _ => rfl, fun _ => rfl, fun _ => rfl, rfl⟩

/-- Claim C3: Serialization order of the composite aggregator equals
registration order: for three registered non-empty models with non-empty
fragments, the composed query string is the first model's fragment, then
"&", then the second's, then "&", then the third's — no re-ordering and no
de-duplication. -/
theorem composite_preserves_registration_order
    (m1 m2 m3 : QPModel) (u : Bool)
    (h1 : m1.is_empty = false) (h2 : m2.is_empty = false)
    (h3 : m3.is_empty = false)
    (n1 : m1.to_query_string u ≠ "") (n2 : m2.to_query_string u ≠ "")
    (n3 : m3.to_query_string u ≠ "") :
    (({} : CompositeQueryParams).add m1 |>.add m2 |>.add m3).to_query_string u
      = m1.to_query_string u ++ "&" ++ m2.to_query_string u ++ "&"
          ++ m3.to_query_string u := by
  simp [CompositeQueryParams.to_query_string, CompositeQueryParams.add,
    collectFragments, h1, h2, h3, n1, n2, n3]
  rfl

/-- Claim C3 witness: a defaults FabricConfigDeployQueryParams (whose
always-present fields emit forceShowRun and inclAllMSDSwitches) followed
by two Lucene models serializes with the deploy fragment strictly first,
and three Lucene models emitting filter, max and offset, registered in
that order, serialize to filter=first:value&max=50&offset=10. -/
theorem composite_preserves_registration_order_witness :
    ((({} : CompositeQueryParams).add (.deploy {})
        |>.add (.lucene { max := some 50 })
        |>.add (.lucene { offset := some 10 })).to_query_string false
      = (QPModel.deploy {}).to_query_string false
          ++ "&" ++ (QPModel.lucene { max := some 50 }).to_query_string false
          ++ "&" ++ (QPModel.lucene { offset := some 10 }).to_query_string false) ∧
    (QPModel.deploy {}).to_query_string false
      = "forceShowRun=false&inclAllMSDSwitches=false" ∧
    ((({} : CompositeQueryParams).add (.lucene { filter := some "first:value" })
        |>.add (.lucene { max := some 50 })
        |>.add (.lucene { offset := some 10 })).to_query_string false
      = (QPModel.lucene { filter := some "first:value" }).to_query_string false
          ++ "&" ++ (QPModel.lucene { max := some 50 }).to_query_string false
          ++ "&" ++ (QPModel.lucene { offset := some 10 }).to_query_string false) :=
  ⟨composite_preserves_registration_order
     (.deploy {}) (.lucene { max := some 50 }) (.lucene { offset := some 10 })
     false (by decide) (by decide) (by decide) (by decide) (by decide) (by decide),
   by decide,
   composite_preserves_registration_order
     (.lucene { filter := some "first:value" }) (.lucene { max := some 50 })
     (.lucene { offset := some 10 }) false
     (by decide) (by decide) (by decide) (by decide) (by decide) (by decide)⟩

/-- Claim C4: The composite aggregator skips models whose is_empty is true
and joins the rest with "&", returning the empty string when nothing is
collected: one all-unset Lucene model plus one with max=100 yields exactly
max=100, and a composite with no registered models yields "". -/
theorem composite_skips_empty_and_joins :
    (({} : CompositeQueryParams).add (.lucene {})
        |>.add (.lucene { max := some 100 })).to_query_string = "max=100" ∧
    ({} : CompositeQueryParams).to_query_string = "" ∧
    (∀ u : Bool, ({} : CompositeQueryParams).to_query_string u = "") :=
  ⟨by decide, rfl, fun _ => rfl⟩

/-- The filter expression of the encoding round-trip scenario. -/
def c5filter : String := "name:Spine* AND role:spine"

/-- The Lucene model of the encoding round-trip scenario. -/
def c5model : LuceneQueryParams := { filter := some c5filter }

/-- Claim C5: For a filter containing ':', space and '*', the encoded
fragment contains %3A, %20 and %2A and percent-decodes back to the
non-encoded fragment filter=<original>; the non-encoded fragment carries
the literal characters and no percent escape. -/
theorem lucene_encoding_round_trip :
    strContains (c5model.to_query_string true) "%3A" = true ∧
    strContains (c5model.to_query_string true) "%20" = true ∧
    strContains (c5model.to_query_string true) "%2A" = true ∧
    percentDecode (c5model.to_query_string true) = c5model.to_query_string false ∧
    c5model.to_query_string false = "filter=" ++ c5filter ∧
    strContains (c5model.to_query_string false) "%" = false := by
  decide

/-- The composite of the end-to-end scenario: endpoint query params with
force_show_run="true" followed by the filter model. -/
def c6composite : CompositeQueryParams :=
  ({} : CompositeQueryParams).add (.deploy { force_show_run := .TRUE })
    |>.add (.lucene { filter := some "name:Spine* AND role:spine",
                      max := some 50, sort := some "name:asc" })

/-- Claim C6: End-to-end: with fabric "MyFabric", switch serial
"FOC12345678", force_show_run="true" and filter model
(filter="name:Spine* AND role:spine", max=50, sort="name:asc"), the
non-encoded composed query string is exactly
forceShowRun=true&inclAllMSDSwitches=false&filter=name:Spine* AND
role:spine&max=50&sort=name:asc and the full path is the joined base path
plus "?" plus that string. -/
theorem end_to_end_composite_scenario :
    c6composite.to_query_string false
      = "forceShowRun=true&inclAllMSDSwitches=false&filter=name:Spine* AND role:spine&max=50&sort=name:asc" ∧
    fullUrl (BasePath.onemanage_fabrics ["MyFabric", "config-deploy", "FOC12345678"])
        (c6composite.to_query_string false)
      = "/appcenter/cisco/ndfc/api/v1/onemanage/fabrics/MyFabric/config-deploy/FOC12345678?forceShowRun=true&inclAllMSDSwitches=false&filter=name:Spine* AND role:spine&max=50&sort=name:asc" := by
  decide

/-- Claim C7: With validate_assignment enabled, assigning an out-of-constraint
string to an identifier field fails at assignment time: fabric_name,
network_name and vrf_name reject length 0 and length above 64; switch_sn,
link_uuid and login_id reject length 0. -/
theorem identifier_assignment_validation (s : String) :
    (s.length = 0 ∨ 64 < s.length →
      (∀ ep : EpOneManageFabricConfigDeploy,
        ep.assign_fabric_name s = Except.error "ValidationError: fabric_name") ∧
      (∀ ep : EpOneManageNetworkUpdate,
        ep.assign_network_name s = Except.error "ValidationError: network_name") ∧
      (∀ ep : EpOneManageVrfUpdate,
        ep.assign_vrf_name s = Except.error "ValidationError: vrf_name")) ∧
    (s.length = 0 →
      (∀ ep : EpOneManageFabricConfigDeploySwitch,
        ep.assign_switch_sn s = Except.error "ValidationError: switch_sn") ∧
      (∀ ep : EpOneManageLinkGetByUuid,
        ep.assign_link_uuid s = Except.error "ValidationError: link_uuid") ∧
      (∀ ep : EpApiV1InfraAaaLocalUsersGet,
        ep.assign_login_id s = Except.error "ValidationError: login_id")) := by
  constructor
  · intro h
    have hv : validLen 1 (some 64) s = false := by
      unfold validLen
      rcases h with h | h
      · simp [h]
      · have hn : ¬ (s.length ≤ 64) := by omega
        simp [hn]
    exact ⟨fun ep => by simp [EpOneManageFabricConfigDeploy.assign_fabric_name, hv],
           fun ep => by simp [EpOneManageNetworkUpdate.assign_network_name, hv],
           fun ep => by simp [EpOneManageVrfUpdate.assign_vrf_name, hv]⟩
  · intro h
    have hv : validLen 1 none s = false := by
      unfold validLen
      simp [h]
    exact ⟨fun ep => by simp [EpOneManageFabricConfigDeploySwitch.assign_switch_sn, hv],
           fun ep => by simp [EpOneManageLinkGetByUuid.assign_link_uuid, hv],
           fun ep => by simp [EpApiV1InfraAaaLocalUsersGet.assign_login_id, hv]⟩

/-- Claim C7 witness: The empty string and a 65-character string are
rejected at assignment time on concrete endpoint instances. -/
theorem identifier_assignment_validation_witness :
    (("" : String).length = 0 ∨ 64 < ("" : String).length) ∧
    ((String.mk (List.replicate 65 'a')).length = 0
      ∨ 64 < (String.mk (List.replicate 65 'a')).length) ∧
    ({} : EpOneManageFabricConfigDeploy).assign_fabric_name ""
      = Except.error "ValidationError: fabric_name" ∧
    ({} : EpOneManageFabricConfigDeploy).assign_fabric_name
        (String.mk (List.replicate 65 'a'))
      = Except.error "ValidationError: fabric_name" ∧
    ({} : EpOneManageFabricConfigDeploySwitch).assign_switch_sn ""
      = Except.error "ValidationError: switch_sn" ∧
    ({} : EpApiV1InfraAaaLocalUsersGet).assign_login_id ""
      = Except.error "ValidationError: login_id" :=
  ⟨Or.inl (by decide), Or.inr (by decide),
   ((identifier_assignment_validation "").1 (Or.inl (by decide))).1 {},
   ((identifier_assignment_validation
       (String.mk (List.replicate 65 'a'))).1 (Or.inr (by decide))).1 {},
   (((identifier_assignment_validation "").2 (by decide)).1) {},
   (((identifier_assignment_validation "").2 (by decide)).2.2) {}⟩

/-- Claim C8: The explicit hyphenated wire keys are emitted verbatim:
network_names serializes under network-names and vrf_names under
vrf-names, never under the camelCase forms. -/
theorem hyphenated_wire_keys_verbatim (s : String) (h : s ≠ "") :
    ({ network_names := some s } : NetworkNamesQueryParams).to_query_string
      = "network-names=" ++ s ∧
    ({ vrf_names := some s } : VrfNamesQueryParams).to_query_string
      = "vrf-names=" ++ s := by
  constructor
  · simp [NetworkNamesQueryParams.to_query_string, h]
    rfl
  · simp [VrfNamesQueryParams.to_query_string, h]
    rfl

/-- Claim C8 witness: Concrete comma-separated values serialize under the
hyphenated keys, and the camelCase forms networkNames / vrfNames never
appear in the output. -/
theorem hyphenated_wire_keys_verbatim_witness :
    ({ network_names := some "Net1,Net2,Net3" } :
        NetworkNamesQueryParams).to_query_string
      = "network-names=" ++ "Net1,Net2,Net3" ∧
    ({ vrf_names := some "VRF1,VRF2,VRF3" } :
        VrfNamesQueryParams).to_query_string
      = "vrf-names=" ++ "VRF1,VRF2,VRF3" ∧
    strContains ({ network_names := some "Net1,Net2,Net3" } :
        NetworkNamesQueryParams).to_query_string "networkNames" = false ∧
    strContains ({ vrf_names := some "VRF1,VRF2,VRF3" } :
        VrfNamesQueryParams).to_query_string "vrfNames" = false :=
  ⟨(hyphenated_wire_keys_verbatim "Net1,Net2,Net3" (by decide)).1,
   (hyphenated_wire_keys_verbatim "VRF1,VRF2,VRF3" (by decide)).2,
   by decide, by decide⟩

/-- Claim C9: Without the validation framework, assignment always succeeds
and stores the value; on every input satisfying the declared constraints
the strict assignment produces exactly the fallback's state, so path and
to_query_string yield equal strings in both variants. -/
theorem fallback_matches_strict_on_valid_inputs
    (ep : EpOneManageFabricConfigDeploy) (s : String) :
    (ep.assign_fabric_name_fallback s).fabric_name = some s ∧
    (validLen 1 (some 64) s = true →
      ep.assign_fabric_name s = Except.ok (ep.assign_fabric_name_fallback s) ∧
      Except.map (fun e => e.path) (ep.assign_fabric_name s)
        = Except.ok ((ep.assign_fabric_name_fallback s).path) ∧
      Except.map (fun e => e.query_params.to_query_string)
          (ep.assign_fabric_name s)
        = Except.ok
            ((ep.assign_fabric_name_fallback s).query_params.to_query_string)) := by
  refine ⟨rfl, fun h => ?_⟩
  have he : ep.assign_fabric_name s
      = Except.ok (ep.assign_fabric_name_fallback s) := by
    simp [EpOneManageFabricConfigDeploy.assign_fabric_name, h,
      EpOneManageFabricConfigDeploy.assign_fabric_name_fallback]
  exact ⟨he, by rw [he]; rfl, by rw [he]; rfl⟩

/-- Claim C9 witness: On the valid input "MyFabric" the strict assignment
yields exactly the fallback's state. -/
theorem fallback_matches_strict_witness :
    validLen 1 (some 64) "MyFabric" = true ∧
    ({} : EpOneManageFabricConfigDeploy).assign_fabric_name "MyFabric"
      = Except.ok
          (({} : EpOneManageFabricConfigDeploy).assign_fabric_name_fallback
            "MyFabric") :=
  ⟨by decide,
   ((fallback_matches_strict_on_valid_inputs {} "MyFabric").2 (by decide)).1⟩

/-- The query string of FabricConfigDeployQueryParams is never the empty
string: both parameters are emitted unconditionally. -/
theorem deploy_query_string_never_empty (p : FabricConfigDeployQueryParams) :
    p.to_query_string ≠ "" := by
  obtain ⟨a, b⟩ := p
  cases a <;> cases b <;> decide

/-- The query string of FabricConfigDeployQueryParams always starts with a
forceShowRun pair. -/
theorem deploy_query_string_starts_force_show_run
    (p : FabricConfigDeployQueryParams) :
    ∃ rest, p.to_query_string = "forceShowRun=" ++ rest := by
  obtain ⟨a, b⟩ := p
  cases a <;> cases b
  · exact ⟨"true&inclAllMSDSwitches=true", by decide⟩
  · exact ⟨"true&inclAllMSDSwitches=false", by decide⟩
  · exact ⟨"false&inclAllMSDSwitches=true", by decide⟩
  · exact ⟨"false&inclAllMSDSwitches=false", by decide⟩

/-- Claim C10: For config-deploy endpoints whose mandatory path fields are
set, the query-string branch of path is always taken: the computed path is
the base path plus "?" plus the query string, and that query string always
begins with a forceShowRun pair. -/
theorem config_deploy_path_always_has_query
    (f sn : String) (qp : FabricConfigDeployQueryParams) :
    ({ fabric_name := some f, query_params := qp } :
        EpOneManageFabricConfigDeploy).path
      = Except.ok (BasePath.onemanage_fabrics [f, "config-deploy"]
          ++ "?" ++ qp.to_query_string) ∧
    ({ fabric_name := some f, switch_sn := some sn, query_params := qp } :
        EpOneManageFabricConfigDeploySwitch).path
      = Except.ok (BasePath.onemanage_fabrics [f, "config-deploy", sn]
          ++ "?" ++ qp.to_query_string) ∧
    ∃ rest, qp.to_query_string = "forceShowRun=" ++ rest := by
  have h := deploy_query_string_never_empty qp
  refine ⟨?_, ?_, deploy_query_string_starts_force_show_run qp⟩
  · simp [EpOneManageFabricConfigDeploy.path, h]
  · simp [EpOneManageFabricConfigDeploySwitch.path, h]

end DemoEp
